import Mathlib

/-!
# Verification of `azure_data_pipeline/client.py` (`AzureSQLClient`)

A shallow embedding of the single source file of the repository.  External
collaborators (the identity provider `ServicePrincipalCredentials`, the
management SDK `SqlManagementClient`, and the `pyodbc` driver) are modelled as
oracles collected in an `AzureEnv` record; the client's own logic — attribute
assignments, truthiness tests, string formatting with `textwrap.dedent`, the
single retry around `pyodbc.connect`, and the `__del__` cleanup — is translated
line by line from the source.  Observable calls to the external world are
recorded as an `Event` trace, and a raised Python exception is an explicit
`PyErr` value.
-/

set_option autoImplicit false

namespace AzureSQL

/-- Opaque handle returned by the identity provider. -/
abbrev Cred := Nat

/-- Opaque handle for the SQL management client. -/
abbrev Mgmt := Nat

/-- Opaque handle for a live `pyodbc` connection. -/
abbrev Conn := Nat

/-- A `pyodbc` cursor; the source builds one only from a connection
(`self.connection_object.cursor()`), so we record that connection. -/
structure Cursor where
  ofConn : Conn
  deriving DecidableEq, Repr

/-- Python exceptions that appear in the source: `pyodbc.OperationalError`
(the only one caught), any other driver/SDK error, and the `AttributeError`
raised by attribute access on `None`. -/
inductive PyErr where
  | operationalError (msg : String)
  | otherError (msg : String)
  | attributeError
  deriving DecidableEq, Repr

/-- Observable calls made by the client to the external world, in order. -/
inductive Event where
  /-- `ServicePrincipalCredentials(...)` constructor call. -/
  | credCtorCall
  /-- `SqlManagementClient(...)` constructor call. -/
  | mgmtCtorCall
  /-- `pyodbc.connect(connection_string)` with the string passed. -/
  | connectAttempt (cs : String)
  /-- `time.sleep(seconds)`. -/
  | sleepCall (seconds : Nat)
  /-- `cursor.commit()` on the cursor handle. -/
  | commitCall (cu : Cursor)
  /-- `cursor.close()` on the cursor handle. -/
  | cursorCloseCall (cu : Cursor)
  /-- `connection.close()` on the connection handle. -/
  | connCloseCall (co : Conn)
  deriving DecidableEq, Repr

/-- The attributes of an `AzureSQLClient` instance.  Attributes that the
source initialises to `None` are `Option`s (`none` is Python's `None`). -/
structure ClientState where
  connected : Bool
  authenticated : Bool
  client_id : String
  client_secret : String
  subscription_id : String
  tenant_id : String
  server_username : String
  server_password : String
  _credentials : Option Cred
  _sql_management_client : Option Mgmt
  _server_name : Option String
  _resource_group : Option String
  _database_name : Option String
  connection_object : Option Conn
  cursor_object : Option Cursor
  deriving DecidableEq, Repr

/-- The external world: results of the three external constructors/calls the
client makes.  `pyodbcConnect` is indexed by the attempt number so that a
first attempt may fail while the retry succeeds. -/
structure AzureEnv where
  /-- Result of `ServicePrincipalCredentials(tenant, client_id, secret)`. -/
  servicePrincipalCredentials : String → String → String → Except PyErr Cred
  /-- Result of `SqlManagementClient(credentials, subscription_id)`; the
  source passes `self.credentials`, which may be `None`. -/
  sqlManagementClient : Option Cred → String → Except PyErr Mgmt
  /-- Result of the n-th `pyodbc.connect(connection_string)` in one call. -/
  pyodbcConnect : Nat → String → Except PyErr Conn

/-- Python truthiness of an optional string: `None` and `""` are falsy,
every other string is truthy. -/
def truthy : Option String → Bool
  | none => false
  | some s => !(s == "")

/-- `@property credentials` — returns `self._credentials`. -/
def credentials (st : ClientState) : Option Cred :=
  st._credentials

/-- `@property sql_management_client` — returns `self._sql_management_client`. -/
def sql_management_client (st : ClientState) : Option Mgmt :=
  st._sql_management_client

/-- `@property server_name` — returns `self._server_name`. -/
def server_name (st : ClientState) : Option String :=
  st._server_name

/-- `server_name.setter` — assigns `self._server_name = value`. -/
def set_server_name (st : ClientState) (value : String) : ClientState :=
  { st with _server_name := some value }

/-- `@property resource_group_name` — returns `self._resource_group`. -/
def resource_group_name (st : ClientState) : Option String :=
  st._resource_group

/-- `resource_group_name.setter` — assigns `self._resource_group = value`. -/
def set_resource_group_name (st : ClientState) (value : String) : ClientState :=
  { st with _resource_group := some value }

/-- `@property database_name` — returns `self._database_name`. -/
def database_name (st : ClientState) : Option String :=
  st._database_name

/-- `database_name.setter` — assigns `self._database_name = value`. -/
def set_database_name (st : ClientState) (value : String) : ClientState :=
  { st with _database_name := some value }

/-- `_create_credential`: calls the identity provider with
`(tenant_id, client_id, client_secret)`; on success stores the credential and
sets `self.connected = True`; an exception propagates with the state as it
was. -/
def _create_credential (env : AzureEnv) (st : ClientState) :
    ClientState × List Event × Option PyErr :=
  match env.servicePrincipalCredentials st.tenant_id st.client_id st.client_secret with
  | .error e => (st, [.credCtorCall], some e)
  | .ok c =>
      ({ st with _credentials := some c, connected := true }, [.credCtorCall], none)

/-- `_create_sql_management_client`: calls the SDK constructor with
`(self.credentials, subscription_id)`; on success stores the handle and sets
`self.authenticated = True`; an exception propagates with the state as it
was. -/
def _create_sql_management_client (env : AzureEnv) (st : ClientState) :
    ClientState × List Event × Option PyErr :=
  match env.sqlManagementClient (credentials st) st.subscription_id with
  | .error e => (st, [.mgmtCtorCall], some e)
  | .ok m =>
      ({ st with _sql_management_client := some m, authenticated := true },
       [.mgmtCtorCall], none)

/-- `__init__`: sets both flags `False`, stores the six configuration
strings, then runs `_create_credential` and `_create_sql_management_client`
in that order; an exception from either propagates uncaught (the returned
state is the object's attributes at the moment of the raise). -/
def __init__ (env : AzureEnv) (client_id client_secret subscription_id tenant_id
    username password : String) : ClientState × List Event × Option PyErr :=
  let st0 : ClientState :=
    { connected := false
      authenticated := false
      client_id := client_id
      client_secret := client_secret
      subscription_id := subscription_id
      tenant_id := tenant_id
      server_username := username
      server_password := password
      _credentials := none
      _sql_management_client := none
      _server_name := none
      _resource_group := none
      _database_name := none
      connection_object := none
      cursor_object := none }
  match _create_credential env st0 with
  | (st1, ev1, some e) => (st1, ev1, some e)
  | (st1, ev1, none) =>
      match _create_sql_management_client env st1 with
      | (st2, ev2, r) => (st2, ev1 ++ ev2, r)

/-- The guard of `__del__`: `if self.cursor_object or self.connection_object`
— truthiness of the two handles (a live handle object is truthy, `None` is
falsy). -/
def del_guard (st : ClientState) : Bool :=
  st.cursor_object.isSome || st.connection_object.isSome

/-- `__del__`: when the guard holds, runs `self.cursor_object.commit()`,
`self.cursor_object.close()`, `self.connection_object.close()` in that order
with no error handling; attribute access on a `None` handle raises
`AttributeError` and abandons the remaining steps. -/
def __del__ (st : ClientState) : List Event × Option PyErr :=
  if del_guard st then
    match st.cursor_object with
    | none => ([], some .attributeError)
    | some cu =>
        match st.connection_object with
        | none => ([.commitCall cu, .cursorCloseCall cu], some .attributeError)
        | some co => ([.commitCall cu, .cursorCloseCall cu, .connCloseCall co], none)
  else ([], none)

/-- A character counted by `textwrap`'s whitespace classes `[ \t]`. -/
def isWsChar (c : Char) : Bool :=
  c = ' ' || c = '\t'

/-- Split a character list at every newline, as Python's `re.MULTILINE`
anchors do: `n` newlines give `n + 1` lines, the newlines themselves
excluded. -/
def splitNl : List Char → List (List Char)
  | [] => [[]]
  | c :: cs =>
    if c = '\n' then [] :: splitNl cs
    else
      match splitNl cs with
      | [] => [[c]]
      | l :: ls => (c :: l) :: ls

/-- Join lines back with newlines (inverse of `splitNl`). -/
def joinNl : List (List Char) → List Char
  | [] => []
  | [l] => l
  | l :: ls => l ++ '\n' :: joinNl ls

/-- `textwrap.dedent`'s first step: a line consisting solely of whitespace
(`^[ \t]+$`) is replaced by an empty line. -/
def wsOnlyClear (l : List Char) : List Char :=
  if !l.isEmpty && l.all isWsChar then [] else l

/-- `textwrap.dedent`'s indent extraction `(^[ \t]*)(?:[^ \t\n])`: the
leading whitespace of a line that has any further content; `none` for a line
without content. -/
def lineIndent (l : List Char) : Option (List Char) :=
  if l.dropWhile isWsChar = [] then none else some (l.takeWhile isWsChar)

/-- Longest common prefix of two character lists — the net effect of
`textwrap.dedent`'s margin-merging loop. -/
def lcp : List Char → List Char → List Char
  | a :: as, b :: bs => if a = b then a :: lcp as bs else []
  | _, _ => []

/-- The margin `textwrap.dedent` computes: the common prefix of the indents
of all content lines, `none` when there is no content line. -/
def computeMargin : List (List Char) → Option (List Char)
  | [] => none
  | i :: is => some (is.foldl lcp i)

/-- Margin removal `re.sub(r'(?m)^' + margin, '', text)`: a line starting
with the margin loses it, any other line is unchanged. -/
def removeMargin (m : List Char) (l : List Char) : List Char :=
  if m.isPrefixOf l then l.drop m.length else l

/-- `textwrap.dedent` on a character list: blank out whitespace-only lines,
compute the common margin of the content lines, and strip it when it is
non-empty. -/
def dedentChars (text : List Char) : List Char :=
  match computeMargin (((splitNl text).map wsOnlyClear).filterMap lineIndent) with
  | none => joinNl ((splitNl text).map wsOnlyClear)
  | some m =>
      if m = [] then joinNl ((splitNl text).map wsOnlyClear)
      else joinNl (((splitNl text).map wsOnlyClear).map (removeMargin m))

/-- `textwrap.dedent` on a string. -/
def dedent (s : String) : String :=
  ⟨dedentChars s.data⟩

/-- The default ODBC driver literal `'{ODBC Driver 17 for SQL Server}'`. -/
def defaultDriver : String :=
  "\x7bODBC Driver 17 for SQL Server\x7d"

/-- The triple-quoted template of `connect_to_database` after
`.format(driver=…, server=…, database=…, username=…, password=…)`: a leading
newline, eight option lines each indented with twelve spaces, and a final
line of eight spaces before the closing quotes. -/
def rawConnectionString (driver server database username password : String) : String :=
  "\n            Driver=" ++ driver ++
  ";\n            Server=" ++ server ++
  ";\n            Database=" ++ database ++
  ";\n            Uid=" ++ username ++
  ";\n            Pwd=" ++ password ++
  ";\n            Encrypt=yes;\n            TrustServerCertificate=no;\n            Connection Timeout=30;\n        "

/-- `connection_string = textwrap.dedent('''…'''.format(…))`. -/
def connection_string (driver server database username password : String) : String :=
  dedent (rawConnectionString driver server database username password)

/-- `if driver: driver = driver else: driver = '{ODBC Driver 17 for SQL Server}'`
— Python truthiness: `None` and the empty string both select the default. -/
def resolve_driver : Option String → String
  | none => defaultDriver
  | some d => if d = "" then defaultDriver else d

/-- The connection string `connect_to_database` builds for given arguments
and stored `server_username` / `server_password`: the server argument gets
the literal suffix `.database.windows.net,1433` before substitution. -/
def connect_cs (st : ClientState) (server database : String)
    (driver : Option String) : String :=
  connection_string (resolve_driver driver)
    (server ++ ".database.windows.net,1433") database
    st.server_username st.server_password

/-- `_create_cursor`: `self.cursor_object = self.connection_object.cursor()`;
attribute access on `None` raises `AttributeError`. -/
def _create_cursor (st : ClientState) : ClientState × Option PyErr :=
  match st.connection_object with
  | none => (st, some .attributeError)
  | some c => ({ st with cursor_object := some ⟨c⟩ }, none)

/-- `connect_to_database`: builds the connection string, tries
`pyodbc.connect` once, and on `pyodbc.OperationalError` only sleeps two
seconds and tries once more with the same string; any other first-attempt
error, and any second-attempt error, propagates uncaught.  On success the
connection is stored, `_create_cursor` runs, and the stored connection is
returned. -/
def connect_to_database (env : AzureEnv) (st : ClientState)
    (server database : String) (driver : Option String) :
    ClientState × List Event × Except PyErr Conn :=
  let cs := connect_cs st server database driver
  match env.pyodbcConnect 0 cs with
  | .ok cnxn =>
      let st1 := { st with connection_object := some cnxn }
      match _create_cursor st1 with
      | (st2, some e) => (st2, [.connectAttempt cs], .error e)
      | (st2, none) => (st2, [.connectAttempt cs], .ok cnxn)
  | .error e =>
      match e with
      | .operationalError _ =>
          match env.pyodbcConnect 1 cs with
          | .ok cnxn =>
              let st1 := { st with connection_object := some cnxn }
              match _create_cursor st1 with
              | (st2, some e2) =>
                  (st2, [.connectAttempt cs, .sleepCall 2, .connectAttempt cs], .error e2)
              | (st2, none) =>
                  (st2, [.connectAttempt cs, .sleepCall 2, .connectAttempt cs], .ok cnxn)
          | .error e2 =>
              (st, [.connectAttempt cs, .sleepCall 2, .connectAttempt cs], .error e2)
      | _ => (st, [.connectAttempt cs], .error e)

/-- `get_server`: resolves each argument against the stored selector by
truthiness (`if self._resource_group: resource_group = self.resource_group_name`)
and delegates to `sql_management_client.servers.get`; the result is the pair
`(resource_group_name, server_name)` of arguments passed to that call. -/
def get_server (st : ClientState) (resource_group server_name_arg : Option String) :
    Option String × Option String :=
  let resource_group :=
    if truthy st._resource_group then resource_group_name st else resource_group
  let server_name_arg :=
    if truthy st._server_name then server_name st else server_name_arg
  (resource_group, server_name_arg)

/-- `get_database`: same resolution policy over three selectors; the result is
the triple `(resource_group_name, server_name, database_name)` of arguments
passed to `sql_management_client.databases.get`. -/
def get_database (st : ClientState)
    (resource_group server_name_arg database_name_arg : Option String) :
    Option String × Option String × Option String :=
  let resource_group :=
    if truthy st._resource_group then resource_group_name st else resource_group
  let server_name_arg :=
    if truthy st._server_name then server_name st else server_name_arg
  let database_name_arg :=
    if truthy st._database_name then database_name st else database_name_arg
  (resource_group, server_name_arg, database_name_arg)

/-- The selector-resolution policy as the amended claim C3 states it, written
from the claim's words (not from the code): the stored selector wins when it
is set to a non-empty string; otherwise — unset, or set to the empty
string — the call argument is used. -/
def specResolve (sel arg : Option String) : Option String :=
  match sel with
  | none => arg
  | some s => if s = "" then arg else some s

/-- Lifecycle order between two client states: flags only ever go from
`false` to `true`, and a stored handle is never cleared back to `None`
(`Option.isSome` never drops from `true` to `false`). -/
def lifecycleLe (st st' : ClientState) : Prop :=
  st.connected ≤ st'.connected ∧
  st.authenticated ≤ st'.authenticated ∧
  st._credentials.isSome ≤ st'._credentials.isSome ∧
  st._sql_management_client.isSome ≤ st'._sql_management_client.isSome ∧
  st.connection_object.isSome ≤ st'.connection_object.isSome ∧
  st.cursor_object.isSome ≤ st'.cursor_object.isSome

/-- A concrete post-construction client state used to instantiate theorems. -/
def sampleState : ClientState :=
  { connected := true
    authenticated := true
    client_id := "cid"
    client_secret := "sec"
    subscription_id := "sub"
    tenant_id := "ten"
    server_username := "user"
    server_password := "pass"
    _credentials := some 11
    _sql_management_client := some 21
    _server_name := none
    _resource_group := none
    _database_name := none
    connection_object := none
    cursor_object := none }

/-- An environment in which every external call succeeds. -/
def okEnv : AzureEnv :=
  { servicePrincipalCredentials := fun _ _ _ => .ok 11
    sqlManagementClient := fun _ _ => .ok 21
    pyodbcConnect := fun _ _ => .ok 31 }

/-- An environment whose first `pyodbc.connect` raises
`pyodbc.OperationalError` and whose second succeeds. -/
def retryEnv : AzureEnv :=
  { okEnv with
    pyodbcConnect := fun n _ =>
      if n = 0 then .error (.operationalError "transient") else .ok 31 }

/-- An environment whose first `pyodbc.connect` raises
`pyodbc.OperationalError` and whose second raises as well. -/
def failTwiceEnv : AzureEnv :=
  { okEnv with
    pyodbcConnect := fun n _ =>
      if n = 0 then .error (.operationalError "transient")
      else .error (.otherError "down") }

/-- An environment whose identity provider rejects the credentials. -/
def badCredEnv : AzureEnv :=
  { okEnv with
    servicePrincipalCredentials := fun _ _ _ => .error (.otherError "denied") }

/-! ## Helper lemmas for the `textwrap.dedent` computation -/

theorem splitNl_ne_nil (l : List Char) : splitNl l ≠ [] := by
  induction l with
  | nil => simp [splitNl]
  | cons c cs ih =>
    simp only [splitNl]
    split
    · simp
    · cases h : splitNl cs with
      | nil => exact absurd h ih
      | cons a as => simp

theorem splitNl_cons_nl (cs : List Char) : splitNl ('\n' :: cs) = [] :: splitNl cs := by
  simp [splitNl]

theorem splitNl_cons_other (c : Char) (h : c ≠ '\n') (cs : List Char) :
    splitNl (c :: cs) = (splitNl cs).modifyHead (c :: ·) := by
  simp only [splitNl, if_neg h]
  cases hs : splitNl cs with
  | nil => exact absurd hs (splitNl_ne_nil cs)
  | cons a as => simp

theorem splitNl_append (xs : List Char) (h : '\n' ∉ xs) (ys : List Char) :
    splitNl (xs ++ ys) = (splitNl ys).modifyHead (xs ++ ·) := by
  induction xs with
  | nil =>
    cases hs : splitNl ys with
    | nil => exact absurd hs (splitNl_ne_nil ys)
    | cons a as => simp [hs]
  | cons c cs ih =>
    have hc : c ≠ '\n' := fun hh => h (hh ▸ List.mem_cons_self c cs)
    have hcs : '\n' ∉ cs := fun hh => h (List.mem_cons_of_mem _ hh)
    rw [List.cons_append, splitNl_cons_other c hc, ih hcs]
    cases hs : splitNl ys with
    | nil => exact absurd hs (splitNl_ne_nil ys)
    | cons a as => simp [hs]

theorem splitNl_append_nl (xs : List Char) (h : '\n' ∉ xs) (ys : List Char) :
    splitNl (xs ++ '\n' :: ys) = xs :: splitNl ys := by
  rw [splitNl_append xs h, splitNl_cons_nl, List.modifyHead_cons, List.append_nil]

theorem splitNl_no_nl (xs : List Char) (h : '\n' ∉ xs) : splitNl xs = [xs] := by
  have h2 := splitNl_append xs h []
  simpa [splitNl] using h2

theorem dropWhile_ws_replicate (n : Nat) (l : List Char) :
    (List.replicate n ' ' ++ l).dropWhile isWsChar = l.dropWhile isWsChar := by
  induction n with
  | zero => rfl
  | succ k ih =>
    rw [List.replicate_succ, List.cons_append, List.dropWhile_cons]
    simp only [isWsChar]
    simp [ih]

theorem takeWhile_ws_replicate (n : Nat) (l : List Char) :
    (List.replicate n ' ' ++ l).takeWhile isWsChar
      = List.replicate n ' ' ++ l.takeWhile isWsChar := by
  induction n with
  | zero => rfl
  | succ k ih =>
    rw [List.replicate_succ, List.cons_append, List.takeWhile_cons]
    simp only [isWsChar]
    simp [ih, List.replicate_succ]

theorem lineIndent_indented (n : Nat) (c : Char) (hc : isWsChar c = false)
    (suf : List Char) :
    lineIndent (List.replicate n ' ' ++ c :: suf) = some (List.replicate n ' ') := by
  unfold lineIndent
  rw [dropWhile_ws_replicate, takeWhile_ws_replicate, List.dropWhile_cons,
      List.takeWhile_cons]
  simp [hc]

theorem wsOnlyClear_of_content (pre suf : List Char) (c : Char)
    (hc : isWsChar c = false) :
    wsOnlyClear (pre ++ c :: suf) = pre ++ c :: suf := by
  unfold wsOnlyClear
  simp [List.all_append, hc]

theorem lcp_self (l : List Char) : lcp l l = l := by
  induction l with
  | nil => rfl
  | cons c cs ih => simp [lcp, ih]

theorem removeMargin_append (m l : List Char) : removeMargin m (m ++ l) = l := by
  unfold removeMargin
  rw [if_pos, List.drop_left]
  exact List.isPrefixOf_iff_prefix.mpr (List.prefix_append m l)

theorem removeMargin_nil (m : List Char) : removeMargin m [] = [] := by
  unfold removeMargin
  split
  · simp
  · rfl

theorem line_server_shape (t : List Char) :
    "            Server=".data ++ t
      = List.replicate 12 ' ' ++ 'S' :: ("erver=".data ++ t) := by
  have h : "            Server=".data = List.replicate 12 ' ' ++ 'S' :: "erver=".data := by
    decide
  rw [h, List.append_assoc, List.cons_append]

theorem wsOnlyClear_server (t : List Char) :
    wsOnlyClear ("            Server=".data ++ t) = "            Server=".data ++ t := by
  rw [line_server_shape t]
  exact wsOnlyClear_of_content (List.replicate 12 ' ') ("erver=".data ++ t) 'S' (by decide)

theorem lineIndent_server (t : List Char) :
    lineIndent ("            Server=".data ++ t) = some (List.replicate 12 ' ') := by
  rw [line_server_shape t]
  exact lineIndent_indented 12 'S' (by decide) _

theorem removeMargin_server (t : List Char) :
    removeMargin (List.replicate 12 ' ') ("            Server=".data ++ t)
      = "Server=".data ++ t := by
  rw [line_server_shape t, removeMargin_append]
  rfl

theorem line_database_shape (t : List Char) :
    "            Database=".data ++ t
      = List.replicate 12 ' ' ++ 'D' :: ("atabase=".data ++ t) := by
  have h : "            Database=".data = List.replicate 12 ' ' ++ 'D' :: "atabase=".data := by
    decide
  rw [h, List.append_assoc, List.cons_append]

theorem wsOnlyClear_database (t : List Char) :
    wsOnlyClear ("            Database=".data ++ t) = "            Database=".data ++ t := by
  rw [line_database_shape t]
  exact wsOnlyClear_of_content (List.replicate 12 ' ') ("atabase=".data ++ t) 'D' (by decide)

theorem lineIndent_database (t : List Char) :
    lineIndent ("            Database=".data ++ t) = some (List.replicate 12 ' ') := by
  rw [line_database_shape t]
  exact lineIndent_indented 12 'D' (by decide) _

theorem removeMargin_database (t : List Char) :
    removeMargin (List.replicate 12 ' ') ("            Database=".data ++ t)
      = "Database=".data ++ t := by
  rw [line_database_shape t, removeMargin_append]
  rfl

theorem line_uid_shape (t : List Char) :
    "            Uid=".data ++ t
      = List.replicate 12 ' ' ++ 'U' :: ("id=".data ++ t) := by
  have h : "            Uid=".data = List.replicate 12 ' ' ++ 'U' :: "id=".data := by
    decide
  rw [h, List.append_assoc, List.cons_append]

theorem wsOnlyClear_uid (t : List Char) :
    wsOnlyClear ("            Uid=".data ++ t) = "            Uid=".data ++ t := by
  rw [line_uid_shape t]
  exact wsOnlyClear_of_content (List.replicate 12 ' ') ("id=".data ++ t) 'U' (by decide)

theorem lineIndent_uid (t : List Char) :
    lineIndent ("            Uid=".data ++ t) = some (List.replicate 12 ' ') := by
  rw [line_uid_shape t]
  exact lineIndent_indented 12 'U' (by decide) _

theorem removeMargin_uid (t : List Char) :
    removeMargin (List.replicate 12 ' ') ("            Uid=".data ++ t)
      = "Uid=".data ++ t := by
  rw [line_uid_shape t, removeMargin_append]
  rfl

theorem line_pwd_shape (t : List Char) :
    "            Pwd=".data ++ t
      = List.replicate 12 ' ' ++ 'P' :: ("wd=".data ++ t) := by
  have h : "            Pwd=".data = List.replicate 12 ' ' ++ 'P' :: "wd=".data := by
    decide
  rw [h, List.append_assoc, List.cons_append]

theorem wsOnlyClear_pwd (t : List Char) :
    wsOnlyClear ("            Pwd=".data ++ t) = "            Pwd=".data ++ t := by
  rw [line_pwd_shape t]
  exact wsOnlyClear_of_content (List.replicate 12 ' ') ("wd=".data ++ t) 'P' (by decide)

theorem lineIndent_pwd (t : List Char) :
    lineIndent ("            Pwd=".data ++ t) = some (List.replicate 12 ' ') := by
  rw [line_pwd_shape t]
  exact lineIndent_indented 12 'P' (by decide) _

theorem removeMargin_pwd (t : List Char) :
    removeMargin (List.replicate 12 ' ') ("            Pwd=".data ++ t)
      = "Pwd=".data ++ t := by
  rw [line_pwd_shape t, removeMargin_append]
  rfl

theorem splitNl_template (sv db u p : List Char)
    (hs : '\n' ∉ sv) (hd : '\n' ∉ db) (hu : '\n' ∉ u) (hp : '\n' ∉ p) :
    splitNl ('\n' :: ("            Driver=\x7bODBC Driver 17 for SQL Server\x7d;".data ++ '\n' ::
      ("            Server=".data ++ (sv ++ (".database.windows.net,1433;".data ++ '\n' ::
      ("            Database=".data ++ (db ++ ([';'] ++ '\n' ::
      ("            Uid=".data ++ (u ++ ([';'] ++ '\n' ::
      ("            Pwd=".data ++ (p ++ ([';'] ++ '\n' ::
      ("            Encrypt=yes;".data ++ '\n' ::
      ("            TrustServerCertificate=no;".data ++ '\n' ::
      ("            Connection Timeout=30;".data ++ '\n' ::
      "        ".data)))))))))))))))))
    = [[],
       "            Driver=\x7bODBC Driver 17 for SQL Server\x7d;".data,
       "            Server=".data ++ (sv ++ ".database.windows.net,1433;".data),
       "            Database=".data ++ (db ++ [';']),
       "            Uid=".data ++ (u ++ [';']),
       "            Pwd=".data ++ (p ++ [';']),
       "            Encrypt=yes;".data,
       "            TrustServerCertificate=no;".data,
       "            Connection Timeout=30;".data,
       "        ".data] := by
  have hDr : '\n' ∉ "            Driver=\x7bODBC Driver 17 for SQL Server\x7d;".data := by decide
  have hS2a : '\n' ∉ "            Server=".data := by decide
  have hS2b : '\n' ∉ ".database.windows.net,1433;".data := by decide
  have hS3a : '\n' ∉ "            Database=".data := by decide
  have hS4a : '\n' ∉ "            Uid=".data := by decide
  have hS5a : '\n' ∉ "            Pwd=".data := by decide
  have hSemi : '\n' ∉ [';'] := by decide
  have hEnc : '\n' ∉ "            Encrypt=yes;".data := by decide
  have hTru : '\n' ∉ "            TrustServerCertificate=no;".data := by decide
  have hTim : '\n' ∉ "            Connection Timeout=30;".data := by decide
  have hSp8 : '\n' ∉ "        ".data := by decide
  rw [splitNl_cons_nl,
      splitNl_append_nl _ hDr,
      splitNl_append _ hS2a,
      splitNl_append sv hs,
      splitNl_append_nl _ hS2b,
      splitNl_append _ hS3a,
      splitNl_append db hd,
      splitNl_append_nl _ hSemi,
      splitNl_append _ hS4a,
      splitNl_append u hu,
      splitNl_append_nl _ hSemi,
      splitNl_append _ hS5a,
      splitNl_append p hp,
      splitNl_append_nl _ hSemi,
      splitNl_append_nl _ hEnc,
      splitNl_append_nl _ hTru,
      splitNl_append_nl _ hTim,
      splitNl_no_nl _ hSp8]
  simp only [List.modifyHead_cons]

theorem dedentChars_eq_some (text : List Char) (m : List Char) (hm : m ≠ [])
    (h2 : computeMargin (((splitNl text).map wsOnlyClear).filterMap lineIndent)
        = some m) :
    dedentChars text
      = joinNl (((splitNl text).map wsOnlyClear).map (removeMargin m)) := by
  unfold dedentChars
  rw [h2]
  exact if_neg hm

theorem dedentChars_template (sv db u p : List Char)
    (hs : '\n' ∉ sv) (hd : '\n' ∉ db) (hu : '\n' ∉ u) (hp : '\n' ∉ p) :
    dedentChars ('\n' :: ("            Driver=\x7bODBC Driver 17 for SQL Server\x7d;".data ++ '\n' ::
      ("            Server=".data ++ (sv ++ (".database.windows.net,1433;".data ++ '\n' ::
      ("            Database=".data ++ (db ++ ([';'] ++ '\n' ::
      ("            Uid=".data ++ (u ++ ([';'] ++ '\n' ::
      ("            Pwd=".data ++ (p ++ ([';'] ++ '\n' ::
      ("            Encrypt=yes;".data ++ '\n' ::
      ("            TrustServerCertificate=no;".data ++ '\n' ::
      ("            Connection Timeout=30;".data ++ '\n' ::
      "        ".data)))))))))))))))))
    = '\n' :: ("Driver=\x7bODBC Driver 17 for SQL Server\x7d;".data ++ '\n' ::
      ("Server=".data ++ (sv ++ (".database.windows.net,1433;".data ++ '\n' ::
      ("Database=".data ++ (db ++ (';' :: '\n' ::
      ("Uid=".data ++ (u ++ (';' :: '\n' ::
      ("Pwd=".data ++ (p ++ (';' :: '\n' ::
      ("Encrypt=yes;".data ++ '\n' ::
      ("TrustServerCertificate=no;".data ++ '\n' ::
      ("Connection Timeout=30;".data ++ ['\n'])))))))))))))))) := by
  have e0 : wsOnlyClear [] = [] := by decide
  have e1 : wsOnlyClear "            Driver=\x7bODBC Driver 17 for SQL Server\x7d;".data
      = "            Driver=\x7bODBC Driver 17 for SQL Server\x7d;".data := by decide
  have e6 : wsOnlyClear "            Encrypt=yes;".data
      = "            Encrypt=yes;".data := by decide
  have e7 : wsOnlyClear "            TrustServerCertificate=no;".data
      = "            TrustServerCertificate=no;".data := by decide
  have e8 : wsOnlyClear "            Connection Timeout=30;".data
      = "            Connection Timeout=30;".data := by decide
  have e9 : wsOnlyClear "        ".data = [] := by decide
  have f0 : lineIndent ([] : List Char) = none := by decide
  have f1 : lineIndent "            Driver=\x7bODBC Driver 17 for SQL Server\x7d;".data
      = some (List.replicate 12 ' ') := by decide
  have f6 : lineIndent "            Encrypt=yes;".data
      = some (List.replicate 12 ' ') := by decide
  have f7 : lineIndent "            TrustServerCertificate=no;".data
      = some (List.replicate 12 ' ') := by decide
  have f8 : lineIndent "            Connection Timeout=30;".data
      = some (List.replicate 12 ' ') := by decide
  have g1 : removeMargin (List.replicate 12 ' ')
        "            Driver=\x7bODBC Driver 17 for SQL Server\x7d;".data
      = "Driver=\x7bODBC Driver 17 for SQL Server\x7d;".data := by decide
  have g6 : removeMargin (List.replicate 12 ' ') "            Encrypt=yes;".data
      = "Encrypt=yes;".data := by decide
  have g7 : removeMargin (List.replicate 12 ' ') "            TrustServerCertificate=no;".data
      = "TrustServerCertificate=no;".data := by decide
  have g8 : removeMargin (List.replicate 12 ' ') "            Connection Timeout=30;".data
      = "Connection Timeout=30;".data := by decide
  have hr : List.replicate 12 ' ' ≠ ([] : List Char) := by decide
  have hm9 : computeMargin [List.replicate 12 ' ', List.replicate 12 ' ',
      List.replicate 12 ' ', List.replicate 12 ' ', List.replicate 12 ' ',
      List.replicate 12 ' ', List.replicate 12 ' ', List.replicate 12 ' ']
      = some (List.replicate 12 ' ') := by
    simp [computeMargin, lcp_self]
  refine (dedentChars_eq_some _ (List.replicate 12 ' ') hr ?_).trans ?_
  · rw [splitNl_template sv db u p hs hd hu hp]
    simp only [List.map_cons, List.map_nil]
    rw [e0, e1, wsOnlyClear_server, wsOnlyClear_database, wsOnlyClear_uid,
        wsOnlyClear_pwd, e6, e7, e8, e9]
    rw [List.filterMap_cons_none f0,
        List.filterMap_cons_some f1,
        List.filterMap_cons_some (lineIndent_server _),
        List.filterMap_cons_some (lineIndent_database _),
        List.filterMap_cons_some (lineIndent_uid _),
        List.filterMap_cons_some (lineIndent_pwd _),
        List.filterMap_cons_some f6,
        List.filterMap_cons_some f7,
        List.filterMap_cons_some f8,
        List.filterMap_cons_none f0,
        List.filterMap_nil]
    exact hm9
  · rw [splitNl_template sv db u p hs hd hu hp]
    simp only [List.map_cons, List.map_nil]
    rw [e0, e1, wsOnlyClear_server, wsOnlyClear_database, wsOnlyClear_uid,
        wsOnlyClear_pwd, e6, e7, e8, e9]
    rw [removeMargin_nil, g1, removeMargin_server, removeMargin_database,
        removeMargin_uid, removeMargin_pwd, g6, g7, g8]
    simp [joinNl, List.append_assoc]

theorem connect_cs_none (st : ClientState) (server database : String) :
    connect_cs st server database none
      = dedent (rawConnectionString defaultDriver
          (server ++ ".database.windows.net,1433") database
          st.server_username st.server_password) := rfl

theorem data_dedent (s : String) : (dedent s).data = dedentChars s.data := rfl

/-- Claim C2 (amended): for every server and database argument — and stored
username and password — that contain no newline character, the connection
string built with no driver argument is byte-for-byte the fixed option block:
Driver is the literal `\x7bODBC Driver 17 for SQL Server\x7d`, Server is the
argument with `.database.windows.net,1433` appended, Uid and Pwd are the
stored username and password, and the fixed options are Encrypt=yes,
TrustServerCertificate=no, Connection Timeout=30.  (A newline in an argument
defeats `textwrap.dedent`'s margin detection, hence the amendment.) -/
theorem C2_connection_string (st : ClientState) (server database : String)
    (hs : '\n' ∉ server.data) (hd : '\n' ∉ database.data)
    (hu : '\n' ∉ st.server_username.data) (hp : '\n' ∉ st.server_password.data) :
    connect_cs st server database none
      = "\nDriver=\x7bODBC Driver 17 for SQL Server\x7d;\nServer=" ++ server ++
        ".database.windows.net,1433;\nDatabase=" ++ database ++
        ";\nUid=" ++ st.server_username ++ ";\nPwd=" ++ st.server_password ++
        ";\nEncrypt=yes;\nTrustServerCertificate=no;\nConnection Timeout=30;\n" := by
  have hraw : (rawConnectionString defaultDriver
        (server ++ ".database.windows.net,1433") database
        st.server_username st.server_password).data
      = '\n' :: ("            Driver=\x7bODBC Driver 17 for SQL Server\x7d;".data ++ '\n' ::
        ("            Server=".data ++ (server.data ++ (".database.windows.net,1433;".data ++ '\n' ::
        ("            Database=".data ++ (database.data ++ ([';'] ++ '\n' ::
        ("            Uid=".data ++ (st.server_username.data ++ ([';'] ++ '\n' ::
        ("            Pwd=".data ++ (st.server_password.data ++ ([';'] ++ '\n' ::
        ("            Encrypt=yes;".data ++ '\n' ::
        ("            TrustServerCertificate=no;".data ++ '\n' ::
        ("            Connection Timeout=30;".data ++ '\n' ::
        "        ".data)))))))))))))))) := by
    simp only [rawConnectionString, defaultDriver, String.data_append,
               List.append_assoc, List.cons_append, List.nil_append]
  have key := dedentChars_template server.data database.data
      st.server_username.data st.server_password.data hs hd hu hp
  rw [connect_cs_none]
  apply String.ext
  rw [data_dedent, hraw, key]
  simp only [String.data_append, List.append_assoc, List.cons_append, List.nil_append]

/-- Witness for C2 at a concrete state and concrete arguments. -/
theorem C2_connection_string_witness :
    '\n' ∉ "myserver".data ∧ '\n' ∉ "mydb".data ∧
    '\n' ∉ sampleState.server_username.data ∧
    '\n' ∉ sampleState.server_password.data ∧
    connect_cs sampleState "myserver" "mydb" none
      = "\nDriver=\x7bODBC Driver 17 for SQL Server\x7d;\nServer=" ++ "myserver" ++
        ".database.windows.net,1433;\nDatabase=" ++ "mydb" ++
        ";\nUid=" ++ sampleState.server_username ++
        ";\nPwd=" ++ sampleState.server_password ++
        ";\nEncrypt=yes;\nTrustServerCertificate=no;\nConnection Timeout=30;\n" :=
  ⟨by decide, by decide, by decide, by decide,
   C2_connection_string sampleState "myserver" "mydb"
     (by decide) (by decide) (by decide) (by decide)⟩

set_option maxRecDepth 4000 in
/-- Counterexample to Claim C2 as stated: with a database argument that
contains a newline, the built connection string is not the claimed
byte-for-byte block — `textwrap.dedent` runs after `str.format`, so the
newline in the substituted value breaks the common margin and the twelve
space indents survive. -/
theorem C2_newline_argument_deviates :
    connect_cs sampleState "srv" "my\ndb" none
      ≠ "\nDriver=\x7bODBC Driver 17 for SQL Server\x7d;\nServer=srv.database.windows.net,1433;\nDatabase=my\ndb;\nUid=user;\nPwd=pass;\nEncrypt=yes;\nTrustServerCertificate=no;\nConnection Timeout=30;\n" := by
  decide

/-! ## Theorems for the claims -/

/-- Claim C1: if the first `pyodbc.connect` raises `pyodbc.OperationalError`,
the client sleeps a fixed 2 seconds and retries exactly once with the same
connection string (the event trace is exactly attempt, sleep 2, attempt —
no third attempt); if the retry succeeds the connection handle is stored,
and if the retry also fails the second error propagates uncaught. -/
theorem C1_transient_retry (env1 env2 : AzureEnv) (st : ClientState)
    (server database : String) (driver : Option String)
    (m1 m2 : String) (c : Conn) (e2 : PyErr)
    (h1 : env1.pyodbcConnect 0 (connect_cs st server database driver)
        = .error (.operationalError m1))
    (h2 : env1.pyodbcConnect 1 (connect_cs st server database driver) = .ok c)
    (h3 : env2.pyodbcConnect 0 (connect_cs st server database driver)
        = .error (.operationalError m2))
    (h4 : env2.pyodbcConnect 1 (connect_cs st server database driver) = .error e2) :
    (connect_to_database env1 st server database driver).2.1
      = [.connectAttempt (connect_cs st server database driver), .sleepCall 2,
         .connectAttempt (connect_cs st server database driver)] ∧
    (connect_to_database env1 st server database driver).1.connection_object = some c ∧
    (connect_to_database env1 st server database driver).2.2 = .ok c ∧
    (connect_to_database env2 st server database driver).2.1
      = [.connectAttempt (connect_cs st server database driver), .sleepCall 2,
         .connectAttempt (connect_cs st server database driver)] ∧
    (connect_to_database env2 st server database driver).2.2 = .error e2 := by
  simp [connect_to_database, _create_cursor, h1, h2, h3, h4]

/-- Witness for C1 at a concrete state and concrete environments. -/
theorem C1_transient_retry_witness :
    retryEnv.pyodbcConnect 0 (connect_cs sampleState "srv" "db" none)
        = .error (.operationalError "transient") ∧
    retryEnv.pyodbcConnect 1 (connect_cs sampleState "srv" "db" none) = .ok 31 ∧
    failTwiceEnv.pyodbcConnect 0 (connect_cs sampleState "srv" "db" none)
        = .error (.operationalError "transient") ∧
    failTwiceEnv.pyodbcConnect 1 (connect_cs sampleState "srv" "db" none)
        = .error (.otherError "down") ∧
    ((connect_to_database retryEnv sampleState "srv" "db" none).2.1
      = [.connectAttempt (connect_cs sampleState "srv" "db" none), .sleepCall 2,
         .connectAttempt (connect_cs sampleState "srv" "db" none)] ∧
     (connect_to_database retryEnv sampleState "srv" "db" none).1.connection_object
        = some 31 ∧
     (connect_to_database retryEnv sampleState "srv" "db" none).2.2 = .ok 31 ∧
     (connect_to_database failTwiceEnv sampleState "srv" "db" none).2.1
      = [.connectAttempt (connect_cs sampleState "srv" "db" none), .sleepCall 2,
         .connectAttempt (connect_cs sampleState "srv" "db" none)] ∧
     (connect_to_database failTwiceEnv sampleState "srv" "db" none).2.2
        = .error (.otherError "down")) :=
  ⟨rfl, rfl, rfl, rfl,
   C1_transient_retry retryEnv failTwiceEnv sampleState "srv" "db" none
     "transient" "transient" 31 (.otherError "down") rfl rfl rfl rfl⟩

/-- Claim C3 (amended): in `get_server` and `get_database`, each selector is
resolved independently of the others on every call: the value passed to the
management client for a selector is the stored selector when it is set to a
non-empty string, and the call argument otherwise (unset, or set to the
empty string) — the policy `specResolve`, stated from the amended claim's
words.  Arbitrary state covers every mixed combination of set and unset
selectors, e.g. only `server_name` set. -/
theorem C3_selector_precedence (st : ClientState) (rg sn dn : Option String) :
    get_server st rg sn
      = (specResolve st._resource_group rg, specResolve st._server_name sn) ∧
    get_database st rg sn dn
      = (specResolve st._resource_group rg, specResolve st._server_name sn,
         specResolve st._database_name dn) := by
  have h : ∀ (sel arg : Option String),
      (if truthy sel then sel else arg) = specResolve sel arg := by
    intro sel arg
    cases sel with
    | none => rfl
    | some s =>
      by_cases hs : s = "" <;> simp [truthy, specResolve, hs]
  constructor <;>
    simp [get_server, get_database, resource_group_name, server_name,
          database_name, h]

/-- Counterexample to Claim C3 as stated: a selector explicitly set (to the
empty string) does not win — the call argument is passed to the management
client instead of the stored empty string. -/
theorem C3_set_selector_loses :
    (set_resource_group_name sampleState "")._resource_group = some "" ∧
    (get_server (set_resource_group_name sampleState "") (some "argRG") (some "argSN")).1
      ≠ some "" := by
  constructor
  · rfl
  · decide

/-- Claim C4: disposing a client that holds both a cursor handle and a
connection handle performs exactly `cursor.commit()`, `cursor.close()`,
`connection.close()` in that order, raising nothing. -/
theorem C4_del_order (st : ClientState) (cu : Cursor) (co : Conn)
    (hcu : st.cursor_object = some cu) (hco : st.connection_object = some co) :
    __del__ st = ([.commitCall cu, .cursorCloseCall cu, .connCloseCall co], none) := by
  simp [__del__, del_guard, hcu, hco]

/-- Witness for C4 at a concrete state with both handles set. -/
theorem C4_del_order_witness :
    ({ sampleState with cursor_object := some ⟨31⟩, connection_object := some 31 } : ClientState).cursor_object = some ⟨31⟩ ∧
    ({ sampleState with cursor_object := some ⟨31⟩, connection_object := some 31 } : ClientState).connection_object = some 31 ∧
    __del__ { sampleState with cursor_object := some ⟨31⟩, connection_object := some 31 }
      = ([.commitCall ⟨31⟩, .cursorCloseCall ⟨31⟩, .connCloseCall 31], none) :=
  ⟨rfl, rfl,
   C4_del_order { sampleState with cursor_object := some ⟨31⟩, connection_object := some 31 }
     ⟨31⟩ 31 rfl rfl⟩

/-- Claim C5: when the identity provider rejects the credentials, `__init__`
propagates that error uncaught, never reaches the management-client
constructor, and leaves both `connected` and `authenticated` false. -/
theorem C5_credential_rejection (env : AzureEnv)
    (cid sec sub ten u p : String) (e : PyErr)
    (h : env.servicePrincipalCredentials ten cid sec = .error e) :
    (__init__ env cid sec sub ten u p).2.2 = some e ∧
    Event.mgmtCtorCall ∉ (__init__ env cid sec sub ten u p).2.1 ∧
    (__init__ env cid sec sub ten u p).1._sql_management_client = none ∧
    (__init__ env cid sec sub ten u p).1.connected = false ∧
    (__init__ env cid sec sub ten u p).1.authenticated = false := by
  simp [__init__, _create_credential, h]

/-- Witness for C5 in an environment with a rejecting identity provider. -/
theorem C5_credential_rejection_witness :
    badCredEnv.servicePrincipalCredentials "ten" "cid" "sec"
        = .error (.otherError "denied") ∧
    ((__init__ badCredEnv "cid" "sec" "sub" "ten" "user" "pass").2.2
        = some (.otherError "denied") ∧
     Event.mgmtCtorCall ∉ (__init__ badCredEnv "cid" "sec" "sub" "ten" "user" "pass").2.1 ∧
     (__init__ badCredEnv "cid" "sec" "sub" "ten" "user" "pass").1._sql_management_client = none ∧
     (__init__ badCredEnv "cid" "sec" "sub" "ten" "user" "pass").1.connected = false ∧
     (__init__ badCredEnv "cid" "sec" "sub" "ten" "user" "pass").1.authenticated = false) :=
  ⟨rfl, C5_credential_rejection badCredEnv "cid" "sec" "sub" "ten" "user" "pass"
     (.otherError "denied") rfl⟩

/-- Claim C6: when the identity provider and the management-client
constructor both accept the configuration, `__init__` raises nothing and
leaves `connected = true` and `authenticated = true`. -/
theorem C6_construction_success (env : AzureEnv) (cid sec sub ten u p : String)
    (cr : Cred) (m : Mgmt)
    (hc : env.servicePrincipalCredentials ten cid sec = .ok cr)
    (hm : env.sqlManagementClient (some cr) sub = .ok m) :
    (__init__ env cid sec sub ten u p).2.2 = none ∧
    (__init__ env cid sec sub ten u p).1.connected = true ∧
    (__init__ env cid sec sub ten u p).1.authenticated = true := by
  simp [__init__, _create_credential, _create_sql_management_client, credentials, hc, hm]

/-- Witness for C6 in the all-successful environment. -/
theorem C6_construction_success_witness :
    okEnv.servicePrincipalCredentials "ten" "cid" "sec" = .ok 11 ∧
    okEnv.sqlManagementClient (some 11) "sub" = .ok 21 ∧
    ((__init__ okEnv "cid" "sec" "sub" "ten" "user" "pass").2.2 = none ∧
     (__init__ okEnv "cid" "sec" "sub" "ten" "user" "pass").1.connected = true ∧
     (__init__ okEnv "cid" "sec" "sub" "ten" "user" "pass").1.authenticated = true) :=
  ⟨rfl, rfl, C6_construction_success okEnv "cid" "sec" "sub" "ten" "user" "pass"
     11 21 rfl rfl⟩

/-- Claim C7: whenever the connection open succeeds (first attempt, or the
retried attempt after an `OperationalError`), the connection handle is
stored, a cursor opened from that stored connection is stored, and the
stored connection handle is the return value. -/
theorem C7_success_stores (env1 env2 : AzureEnv) (st : ClientState)
    (server database : String) (driver : Option String)
    (c c' : Conn) (m : String)
    (h1 : env1.pyodbcConnect 0 (connect_cs st server database driver) = .ok c)
    (h2 : env2.pyodbcConnect 0 (connect_cs st server database driver)
        = .error (.operationalError m))
    (h3 : env2.pyodbcConnect 1 (connect_cs st server database driver) = .ok c') :
    (connect_to_database env1 st server database driver).1.connection_object = some c ∧
    (connect_to_database env1 st server database driver).1.cursor_object = some ⟨c⟩ ∧
    (connect_to_database env1 st server database driver).2.2 = .ok c ∧
    (connect_to_database env2 st server database driver).1.connection_object = some c' ∧
    (connect_to_database env2 st server database driver).1.cursor_object = some ⟨c'⟩ ∧
    (connect_to_database env2 st server database driver).2.2 = .ok c' := by
  simp [connect_to_database, _create_cursor, h1, h2, h3]

/-- Witness for C7 at a concrete state and both success shapes. -/
theorem C7_success_stores_witness :
    okEnv.pyodbcConnect 0 (connect_cs sampleState "srv" "db" none) = .ok 31 ∧
    retryEnv.pyodbcConnect 0 (connect_cs sampleState "srv" "db" none)
        = .error (.operationalError "transient") ∧
    retryEnv.pyodbcConnect 1 (connect_cs sampleState "srv" "db" none) = .ok 31 ∧
    ((connect_to_database okEnv sampleState "srv" "db" none).1.connection_object = some 31 ∧
     (connect_to_database okEnv sampleState "srv" "db" none).1.cursor_object = some ⟨31⟩ ∧
     (connect_to_database okEnv sampleState "srv" "db" none).2.2 = .ok 31 ∧
     (connect_to_database retryEnv sampleState "srv" "db" none).1.connection_object = some 31 ∧
     (connect_to_database retryEnv sampleState "srv" "db" none).1.cursor_object = some ⟨31⟩ ∧
     (connect_to_database retryEnv sampleState "srv" "db" none).2.2 = .ok 31) :=
  ⟨rfl, rfl, rfl,
   C7_success_stores okEnv retryEnv sampleState "srv" "db" none 31 31 "transient"
     rfl rfl rfl⟩

/-- Claim C8: every client operation other than disposal is monotonic — it
never moves `connected` or `authenticated` from `true` back to `false`, and
never clears a stored credential, management-client, connection, or cursor
handle. -/
theorem C8_monotonic (env : AzureEnv) (st : ClientState) (v s d : String)
    (drv : Option String) :
    lifecycleLe st (set_server_name st v) ∧
    lifecycleLe st (set_resource_group_name st v) ∧
    lifecycleLe st (set_database_name st v) ∧
    lifecycleLe st (_create_credential env st).1 ∧
    lifecycleLe st (_create_sql_management_client env st).1 ∧
    lifecycleLe st (_create_cursor st).1 ∧
    lifecycleLe st (connect_to_database env st s d drv).1 := by
  refine ⟨?_, ?_, ?_, ?_, ?_, ?_, ?_⟩
  · simp [lifecycleLe, set_server_name]
  · simp [lifecycleLe, set_resource_group_name]
  · simp [lifecycleLe, set_database_name]
  · unfold _create_credential
    cases env.servicePrincipalCredentials st.tenant_id st.client_id st.client_secret <;>
      simp [lifecycleLe, Bool.le_true]
  · unfold _create_sql_management_client
    cases env.sqlManagementClient (credentials st) st.subscription_id <;>
      simp [lifecycleLe, Bool.le_true]
  · unfold _create_cursor
    cases h : st.connection_object <;> simp [lifecycleLe, h, Bool.le_true]
  · unfold connect_to_database
    cases h0 : env.pyodbcConnect 0 (connect_cs st s d drv) with
    | ok c => simp [h0, _create_cursor, lifecycleLe, Bool.le_true]
    | error e =>
      cases e with
      | operationalError m =>
        cases h1 : env.pyodbcConnect 1 (connect_cs st s d drv) with
        | ok c => simp [h0, h1, _create_cursor, lifecycleLe, Bool.le_true]
        | error e2 => simp [h0, h1, lifecycleLe]
      | otherError m => simp [h0, lifecycleLe]
      | attributeError => simp [h0, lifecycleLe]

/-- Claim C10: selector precedence tests truthiness, not presence — a
selector explicitly set to the empty string behaves exactly as an unset
selector in both lookups, so the call argument is used. -/
theorem C10_empty_selector_is_unset (st : ClientState) (rg sn dn : Option String) :
    get_server (set_resource_group_name st "") rg sn
      = get_server { st with _resource_group := none } rg sn ∧
    (get_server (set_resource_group_name st "") rg sn).1 = rg ∧
    get_server (set_server_name st "") rg sn
      = get_server { st with _server_name := none } rg sn ∧
    (get_server (set_server_name st "") rg sn).2 = sn ∧
    get_database (set_resource_group_name st "") rg sn dn
      = get_database { st with _resource_group := none } rg sn dn ∧
    (get_database (set_resource_group_name st "") rg sn dn).1 = rg ∧
    get_database (set_server_name st "") rg sn dn
      = get_database { st with _server_name := none } rg sn dn ∧
    (get_database (set_server_name st "") rg sn dn).2.1 = sn ∧
    get_database (set_database_name st "") rg sn dn
      = get_database { st with _database_name := none } rg sn dn ∧
    (get_database (set_database_name st "") rg sn dn).2.2 = dn := by
  simp [get_server, get_database, set_resource_group_name, set_server_name,
        set_database_name, truthy, resource_group_name, server_name, database_name]

/-- Claim C9: at disposal with a connection handle but no cursor handle, the
cleanup guard (a disjunction of the two handles) is still entered, the
`commit` access on the absent cursor fails with `AttributeError`, and the
connection handle is never closed. -/
theorem C9_del_without_cursor (st : ClientState) (co : Conn)
    (hcu : st.cursor_object = none) (hco : st.connection_object = some co) :
    del_guard st = true ∧
    __del__ st = ([], some .attributeError) ∧
    Event.connCloseCall co ∉ (__del__ st).1 := by
  refine ⟨?_, ?_, ?_⟩ <;> simp [__del__, del_guard, hcu, hco]

/-- Witness for C9 at a concrete state with only a connection handle. -/
theorem C9_del_without_cursor_witness :
    ({ sampleState with connection_object := some 31 } : ClientState).cursor_object = none ∧
    ({ sampleState with connection_object := some 31 } : ClientState).connection_object = some 31 ∧
    (del_guard { sampleState with connection_object := some 31 } = true ∧
     __del__ { sampleState with connection_object := some 31 } = ([], some .attributeError) ∧
     Event.connCloseCall 31 ∉ (__del__ { sampleState with connection_object := some 31 }).1) :=
  ⟨rfl, rfl,
   C9_del_without_cursor { sampleState with connection_object := some 31 } 31 rfl rfl⟩

end AzureSQL
